import Mathlib

/-!
# Verification of the Hassanscraft voxel demo (`src/script.js`)

Shallow embedding of the voxel world generation, block-mesh building,
UV-atlas lookup, first-person movement integration and mouse-look
handling of `script.js`, with theorems settling the specification
claims about them.

Conventions:
* JS numbers are modelled as `ℚ` where the code only performs rational
  arithmetic (UV coordinates, mesh positions) and as `ℝ` where the code
  calls `Math.sqrt` through `THREE.Vector3.normalize` (movement).
* Block types are their numeric ids from the `BLOCK_TYPES` table
  (0 = air, 1 = grass, 2 = dirt, 3 = stone).
-/

set_option maxRecDepth 100000

/-- `CHUNK_SIZE` (script.js line 52). -/
def CHUNK_SIZE : ℕ := 16

/-- Air id, `BLOCK_TYPES` table (script.js lines 56-61). -/
def airId : ℕ := 0

/-- Grass id (`BLOCK_TYPES`). -/
def grassId : ℕ := 1

/-- Dirt id (`BLOCK_TYPES`). -/
def dirtId : ℕ := 2

/-- Stone id (`BLOCK_TYPES`). -/
def stoneId : ℕ := 3

/-- Block id computed by the world-generation loop body for a layer `y`
(script.js lines 121-124): `let blockId = 0; if (y === 0) blockId = 1;
else if (y < 4) blockId = 2; else if (y < 8) blockId = 3;`. -/
def genBlockId (y : ℕ) : ℕ :=
  if y = 0 then grassId else if y < 4 then dirtId else if y < 8 then stoneId else airId

/-- The block-type grid produced by the generation loop (script.js lines
117-131): the loop runs over `0 ≤ x,z < CHUNK_SIZE` and `0 ≤ y < 8` and
creates the block `genBlockId y` there; every cell the loop never visits
holds no block, i.e. air. -/
def worldGrid (x y z : ℕ) : ℕ :=
  if x < CHUNK_SIZE ∧ z < CHUNK_SIZE ∧ y < 8 then genBlockId y else airId

/-- Modelled from the spec: the source has no voxel lookup function (the
`world` array declared at script.js line 115 is never populated and is
never read), so `blockAt` is modelled from spec §4.2/§7: it returns the
generated block type in range and Air for any coordinate outside the
generated extent (x or z outside `[0, CHUNK_SIZE)`, y outside `[0, 8)`)
rather than failing. -/
def blockAt (x y z : ℤ) : ℕ :=
  if 0 ≤ x ∧ x < 16 ∧ 0 ≤ z ∧ z < 16 ∧ 0 ≤ y ∧ y < 8 then
    worldGrid x.toNat y.toNat z.toNat
  else airId

/-- A 2-d texture coordinate (`THREE.Vector2`), rational components. -/
structure Vec2 where
  u : ℚ
  v : ℚ
deriving DecidableEq

/-- `atlasBlockSize = 1 / 16` (script.js line 74). -/
def atlasBlockSize : ℚ := 1 / 16

/-- `getUVForBlock(id)` (script.js lines 75-84): a straight-line
computation returning the four corner UVs
`[(x, 1-s), (x+s, 1-s), (x+s, 1), (x, 1)]` with `x = (id-1)*s`,
`s = atlasBlockSize`; there is no validation and no failure path. -/
def getUVForBlock (id : ℤ) : List Vec2 :=
  let x : ℚ := (id - 1) * atlasBlockSize
  [⟨x, 1 - atlasBlockSize⟩,
   ⟨x + atlasBlockSize, 1 - atlasBlockSize⟩,
   ⟨x + atlasBlockSize, 1⟩,
   ⟨x, 1⟩]

/-- The `uv` attribute of a fresh `THREE.BoxGeometry`: 6 faces with 4
vertices each (24 entries), each face carrying the default quad
`(0,1), (1,1), (0,0), (1,0)`. -/
def boxGeometryUVs : List Vec2 :=
  (List.replicate 6 [⟨0, 1⟩, ⟨1, 1⟩, ⟨0, 0⟩, ⟨1, 0⟩]).flatten

/-- One iteration of the UV-patching loop body (script.js lines 97-100):
`setXY(i+k, uv[k].x, uv[k].y)` for `k = 0,1,2,3`. -/
def setUVQuad (attr : List Vec2) (i : ℕ) (uv : List Vec2) : List Vec2 :=
  ((((attr.set i (uv.getD 0 ⟨0, 0⟩)).set (i + 1) (uv.getD 1 ⟨0, 0⟩)).set
      (i + 2) (uv.getD 2 ⟨0, 0⟩)).set (i + 3) (uv.getD 3 ⟨0, 0⟩))

/-- The UV-patching loop of `createBlockMesh` (script.js lines 96-101):
`for (let i = 0; i < geometry.attributes.uv.count; i += 4)` writing the
4-corner quad `uv` into entries `i .. i+3`. -/
def patchUVFrom (uv : List Vec2) (attr : List Vec2) (i : ℕ) : List Vec2 :=
  if h : i < attr.length then patchUVFrom uv (setUVQuad attr i uv) (i + 4) else attr
termination_by attr.length - i
decreasing_by
  simp only [setUVQuad, List.length_set]
  omega

/-- The full UV attribute of the cube built for block `id`: the box
geometry's 24-entry UV attribute after the patching loop. -/
def cubeUVs (id : ℤ) : List Vec2 :=
  patchUVFrom (getUVForBlock id) boxGeometryUVs 0

/-- One drawable cube record produced by `createBlockMesh`: the block id
it was built for and the mesh position set at script.js line 109. -/
structure CubeInstance where
  blockId : ℕ
  pos : ℚ × ℚ × ℚ
deriving DecidableEq

/-- `createBlockMesh(blockId, x, y, z)` (script.js lines 87-112): returns
`null` (`none`) for air, otherwise a mesh positioned at
`(x + 0.5, y + 0.5, z + 0.5)`. -/
def createBlockMesh (blockId : ℕ) (x y z : ℕ) : Option CubeInstance :=
  if blockId = 0 then none
  else some ⟨blockId, ((x : ℚ) + 1/2, (y : ℚ) + 1/2, (z : ℚ) + 1/2)⟩

/-- The cube instances added to the scene by the world loop (script.js
lines 117-131): for `x` then `z` in `[0, CHUNK_SIZE)` and `y` in `[0, 8)`
compute `blockId = genBlockId y` and, when `blockId > 0`, emit
`createBlockMesh blockId x y z`. -/
def worldInstances : List CubeInstance :=
  (List.range CHUNK_SIZE).flatMap fun x =>
    (List.range CHUNK_SIZE).flatMap fun z =>
      (List.range 8).filterMap fun y =>
        let blockId := genBlockId y
        if blockId > 0 then createBlockMesh blockId x y z else none

/-- The mesh record `createBlockMesh` produces for block `b` at voxel
`(x, y, z)` when `b` is not air. -/
def mkInstance (b : ℕ) (x y z : ℕ) : CubeInstance :=
  ⟨b, ((x : ℚ) + 1/2, (y : ℚ) + 1/2, (z : ℚ) + 1/2)⟩

lemma range_eight : List.range 8 = [0, 1, 2, 3, 4, 5, 6, 7] := by decide

lemma worldInstances_inner (x z : ℕ) :
    ((List.range 8).filterMap fun y =>
        let blockId := genBlockId y
        if blockId > 0 then createBlockMesh blockId x y z else none) =
      (List.range 8).map fun y => mkInstance (genBlockId y) x y z := by
  rw [range_eight]
  norm_num [List.filterMap_cons, genBlockId, createBlockMesh, mkInstance, grassId,
    dirtId, stoneId, airId]

lemma worldInstances_eq :
    worldInstances =
      (List.range 16).flatMap fun x =>
        (List.range 16).flatMap fun z =>
          (List.range 8).map fun y => mkInstance (genBlockId y) x y z := by
  show ((List.range CHUNK_SIZE).flatMap fun x => (List.range CHUNK_SIZE).flatMap fun z => _) = _
  simp only [CHUNK_SIZE, worldInstances_inner]

lemma countP_range_eq (a : ℕ) : ∀ n : ℕ,
    ((List.range n).countP fun y => decide (y = a)) = if a < n then 1 else 0 := by
  intro n
  induction n with
  | zero => simp
  | succ n ih =>
    rw [List.range_succ, List.countP_append, ih]
    have hone : (List.countP (fun y => decide (y = a)) [n]) = if n = a then 1 else 0 := by
      simp [List.countP_cons]
    rw [hone]
    split_ifs <;> omega

lemma sum_ite_range (a t : ℕ) : ∀ n : ℕ,
    (((List.range n).map fun x => if x = a then t else 0).sum) = if a < n then t else 0 := by
  intro n
  induction n with
  | zero => simp
  | succ n ih =>
    rw [List.range_succ, List.map_append, List.sum_append, ih]
    simp only [List.map_cons, List.map_nil, List.sum_cons, List.sum_nil]
    split_ifs <;> omega

lemma worldInstances_length : worldInstances.length = 2048 := by
  rw [worldInstances_eq]
  simp [List.length_flatMap, Function.comp_def]

lemma countP_worldInstances (a b c : ℕ) :
    (worldInstances.countP fun inst =>
        decide (inst.pos = ((a : ℚ) + 1/2, (b : ℚ) + 1/2, (c : ℚ) + 1/2))) =
      if a < 16 ∧ c < 16 ∧ b < 8 then 1 else 0 := by
  have h1 : ∀ x z : ℕ,
      (((List.range 8).map fun y => mkInstance (genBlockId y) x y z).countP fun inst =>
          decide (inst.pos = ((a : ℚ) + 1/2, (b : ℚ) + 1/2, (c : ℚ) + 1/2))) =
        if x = a then (if z = c then (if b < 8 then 1 else 0) else 0) else 0 := by
    intro x z
    rw [List.countP_map]
    by_cases hx : x = a
    · by_cases hz : z = c
      · subst hx; subst hz
        simp only [if_pos rfl]
        calc ((List.range 8).countP
                  ((fun inst => decide (inst.pos = ((x : ℚ) + 1/2, (b : ℚ) + 1/2, (z : ℚ) + 1/2))) ∘
                    fun y => mkInstance (genBlockId y) x y z))
            = (List.range 8).countP fun y => decide (y = b) := by
              apply List.countP_congr
              intro y _
              simp [mkInstance, Prod.ext_iff]
          _ = if b < 8 then 1 else 0 := countP_range_eq b 8
      · rw [if_pos hx, if_neg hz]
        apply List.countP_eq_zero.mpr
        intro y _
        simp [mkInstance, Prod.ext_iff, hz]
    · rw [if_neg hx]
      apply List.countP_eq_zero.mpr
      intro y _
      simp [mkInstance, Prod.ext_iff, hx]
  rw [worldInstances_eq, List.countP_flatMap]
  have h2 : ∀ x : ℕ,
      (((List.range 16).flatMap fun z =>
          (List.range 8).map fun y => mkInstance (genBlockId y) x y z).countP fun inst =>
            decide (inst.pos = ((a : ℚ) + 1/2, (b : ℚ) + 1/2, (c : ℚ) + 1/2))) =
        if x = a then (if c < 16 then (if b < 8 then 1 else 0) else 0) else 0 := by
    intro x
    rw [List.countP_flatMap]
    by_cases hx : x = a
    · simp only [Function.comp_def, h1, if_pos hx]
      rw [sum_ite_range]
    · simp only [Function.comp_def, h1, if_neg hx]
      simp
  simp only [Function.comp_def, h2]
  rw [sum_ite_range]
  split_ifs <;> omega


/-- A 3-d vector with real components (`THREE.Vector3`). -/
structure Vec3 where
  x : ℝ
  y : ℝ
  z : ℝ

/-- The movement-relevant state of the session: the camera position
(script.js line 15), the `velocity` vector (line 20) and the `canJump`
flag (line 19). -/
structure PlayerState where
  position : Vec3
  velocity : Vec3
  canJump : Bool

/-- The externally supplied movement intent: the key-hold flags
`moveForward`, `moveBackward`, `moveLeft`, `moveRight`
(script.js line 18). -/
structure Intent where
  moveForward : Bool
  moveBackward : Bool
  moveLeft : Bool
  moveRight : Bool

/-- The initial session state: `camera.position.set(8, 10, 8)` (line 15),
`velocity = new THREE.Vector3()` i.e. zero (line 20), `canJump = false`
(line 19). -/
def initialState : PlayerState :=
  ⟨⟨8, 10, 8⟩, ⟨0, 0, 0⟩, false⟩

/-- JS `Number` applied to a boolean. -/
def num (b : Bool) : ℝ := if b then 1 else 0

/-- `THREE.Vector3.length()`. -/
noncomputable def vlength (v : Vec3) : ℝ :=
  Real.sqrt (v.x * v.x + v.y * v.y + v.z * v.z)

/-- `THREE.Vector3.normalize()`: `divideScalar(length() || 1)`, i.e.
multiply every component by `1 / d` where `d` is the length, or `1`
when the length is zero. -/
noncomputable def vnormalize (v : Vec3) : Vec3 :=
  let d := if vlength v = 0 then 1 else vlength v
  ⟨v.x * (1 / d), v.y * (1 / d), v.z * (1 / d)⟩

/-- The integration part of one `animate()` tick (script.js lines
181-194): gravity, horizontal damping, direction from intent (the global
`direction.y` is never written and stays `0`), normalization, the
guarded acceleration updates, and the position integration. The
`canJump` flag is untouched by these lines. -/
noncomputable def moveIntegrate (s : PlayerState) (i : Intent) (delta : ℝ) : PlayerState :=
  let vy := s.velocity.y - 9.8 * delta
  let vx0 := s.velocity.x - s.velocity.x * 10 * delta
  let vz0 := s.velocity.z - s.velocity.z * 10 * delta
  let dir := vnormalize ⟨num i.moveRight - num i.moveLeft, 0,
    num i.moveForward - num i.moveBackward⟩
  let vz := if i.moveForward || i.moveBackward then vz0 - dir.z * 20 * delta else vz0
  let vx := if i.moveLeft || i.moveRight then vx0 - dir.x * 20 * delta else vx0
  let px := s.position.x + vx * delta
  let py := s.position.y + vy * delta
  let pz := s.position.z + vz * delta
  ⟨⟨px, py, pz⟩, ⟨vx, vy, vz⟩, s.canJump⟩

/-- The ground clamp of `animate()` (script.js lines 196-200): if
`camera.position.y < 2` then `velocity.y = 0`, `camera.position.y = 2`
and `canJump = true`; otherwise nothing happens. -/
noncomputable def groundClamp (s : PlayerState) : PlayerState :=
  if s.position.y < 2 then
    ⟨⟨s.position.x, 2, s.position.z⟩, ⟨s.velocity.x, 0, s.velocity.z⟩, true⟩
  else s

/-- One full movement tick of `animate()` (script.js lines 181-200),
written as the source's single straight-line sequence: integration
followed by the ground clamp. -/
noncomputable def animateTick (s : PlayerState) (i : Intent) (delta : ℝ) : PlayerState :=
  let vy := s.velocity.y - 9.8 * delta
  let vx0 := s.velocity.x - s.velocity.x * 10 * delta
  let vz0 := s.velocity.z - s.velocity.z * 10 * delta
  let dir := vnormalize ⟨num i.moveRight - num i.moveLeft, 0,
    num i.moveForward - num i.moveBackward⟩
  let vz := if i.moveForward || i.moveBackward then vz0 - dir.z * 20 * delta else vz0
  let vx := if i.moveLeft || i.moveRight then vx0 - dir.x * 20 * delta else vx0
  let px := s.position.x + vx * delta
  let py := s.position.y + vy * delta
  let pz := s.position.z + vz * delta
  if py < 2 then ⟨⟨px, 2, pz⟩, ⟨vx, 0, vz⟩, true⟩
  else ⟨⟨px, py, pz⟩, ⟨vx, vy, vz⟩, s.canJump⟩

/-- The `Space` branch of the keydown handler (script.js lines 140-143):
`if (canJump) velocity.y += 8; canJump = false;`. -/
def spaceKeydown (s : PlayerState) : PlayerState :=
  let s1 := if s.canJump then
    { s with velocity := ⟨s.velocity.x, s.velocity.y + 8, s.velocity.z⟩ }
  else s
  { s1 with canJump := false }

/-- States reachable from the initial session state by movement ticks
and jump pulses. -/
inductive Reachable : PlayerState → Prop
  | init : Reachable initialState
  | tick (s : PlayerState) (i : Intent) (delta : ℝ) :
      Reachable s → Reachable (animateTick s i delta)
  | jump (s : PlayerState) : Reachable s → Reachable (spaceKeydown s)

/-- The mouse-look handler `onMouseMove` (script.js lines 39-45) acting
on `(rotation.x, rotation.y)`: yaw `rotation.y -= movementX * 0.002`,
pitch `rotation.x -= movementY * 0.002` then clamped by
`Math.max(-Math.PI/2, Math.min(Math.PI/2, rotation.x))`. -/
noncomputable def onMouseMove (rot : ℝ × ℝ) (movementX movementY : ℝ) : ℝ × ℝ :=
  let ry := rot.2 - movementX * 0.002
  let rx := rot.1 - movementY * 0.002
  (max (-(Real.pi / 2)) (min (Real.pi / 2) rx), ry)

/-- A sequence of mouse-move events processed in order. -/
noncomputable def processMouseMoves (rot : ℝ × ℝ) (l : List (ℝ × ℝ)) : ℝ × ℝ :=
  l.foldl (fun r e => onMouseMove r e.1 e.2) rot

lemma animateTick_eq (s : PlayerState) (i : Intent) (delta : ℝ) :
    animateTick s i delta = groundClamp (moveIntegrate s i delta) := by
  simp only [animateTick, moveIntegrate, groundClamp]

lemma patchUVFrom_step (uv attr : List Vec2) (i : ℕ) (h : i < attr.length) :
    patchUVFrom uv attr i = patchUVFrom uv (setUVQuad attr i uv) (i + 4) := by
  rw [patchUVFrom.eq_def]
  exact dif_pos h

lemma patchUVFrom_stop (uv attr : List Vec2) (i : ℕ) (h : ¬ i < attr.length) :
    patchUVFrom uv attr i = attr := by
  rw [patchUVFrom.eq_def]
  exact dif_neg h

lemma patchUVFrom_step2 (uv attr attr2 : List Vec2) (i : ℕ) (h : i < attr.length)
    (h2 : setUVQuad attr i uv = attr2) :
    patchUVFrom uv attr i = patchUVFrom uv attr2 (i + 4) := by
  rw [patchUVFrom_step uv attr i h, h2]

lemma boxGeometryUVs_eq : boxGeometryUVs =
    [⟨0, 1⟩, ⟨1, 1⟩, ⟨0, 0⟩, ⟨1, 0⟩, ⟨0, 1⟩, ⟨1, 1⟩, ⟨0, 0⟩, ⟨1, 0⟩, ⟨0, 1⟩, ⟨1, 1⟩, ⟨0, 0⟩, ⟨1, 0⟩, ⟨0, 1⟩, ⟨1, 1⟩, ⟨0, 0⟩, ⟨1, 0⟩, ⟨0, 1⟩, ⟨1, 1⟩, ⟨0, 0⟩, ⟨1, 0⟩, ⟨0, 1⟩, ⟨1, 1⟩, ⟨0, 0⟩, ⟨1, 0⟩] := by
  rfl

lemma patchUVFrom_box (q0 q1 q2 q3 : Vec2) :
    patchUVFrom [q0, q1, q2, q3] boxGeometryUVs 0 = (List.replicate 6 [q0, q1, q2, q3]).flatten := by
  rw [patchUVFrom_step2 [q0, q1, q2, q3] boxGeometryUVs [q0, q1, q2, q3, ⟨0, 1⟩, ⟨1, 1⟩, ⟨0, 0⟩, ⟨1, 0⟩, ⟨0, 1⟩, ⟨1, 1⟩, ⟨0, 0⟩, ⟨1, 0⟩, ⟨0, 1⟩, ⟨1, 1⟩, ⟨0, 0⟩, ⟨1, 0⟩, ⟨0, 1⟩, ⟨1, 1⟩, ⟨0, 0⟩, ⟨1, 0⟩, ⟨0, 1⟩, ⟨1, 1⟩, ⟨0, 0⟩, ⟨1, 0⟩] 0 (by norm_num [boxGeometryUVs]) (by rw [boxGeometryUVs_eq]; rfl)]
  rw [patchUVFrom_step2 [q0, q1, q2, q3] [q0, q1, q2, q3, ⟨0, 1⟩, ⟨1, 1⟩, ⟨0, 0⟩, ⟨1, 0⟩, ⟨0, 1⟩, ⟨1, 1⟩, ⟨0, 0⟩, ⟨1, 0⟩, ⟨0, 1⟩, ⟨1, 1⟩, ⟨0, 0⟩, ⟨1, 0⟩, ⟨0, 1⟩, ⟨1, 1⟩, ⟨0, 0⟩, ⟨1, 0⟩, ⟨0, 1⟩, ⟨1, 1⟩, ⟨0, 0⟩, ⟨1, 0⟩] [q0, q1, q2, q3, q0, q1, q2, q3, ⟨0, 1⟩, ⟨1, 1⟩, ⟨0, 0⟩, ⟨1, 0⟩, ⟨0, 1⟩, ⟨1, 1⟩, ⟨0, 0⟩, ⟨1, 0⟩, ⟨0, 1⟩, ⟨1, 1⟩, ⟨0, 0⟩, ⟨1, 0⟩, ⟨0, 1⟩, ⟨1, 1⟩, ⟨0, 0⟩, ⟨1, 0⟩] 4 (by norm_num) rfl]
  rw [patchUVFrom_step2 [q0, q1, q2, q3] [q0, q1, q2, q3, q0, q1, q2, q3, ⟨0, 1⟩, ⟨1, 1⟩, ⟨0, 0⟩, ⟨1, 0⟩, ⟨0, 1⟩, ⟨1, 1⟩, ⟨0, 0⟩, ⟨1, 0⟩, ⟨0, 1⟩, ⟨1, 1⟩, ⟨0, 0⟩, ⟨1, 0⟩, ⟨0, 1⟩, ⟨1, 1⟩, ⟨0, 0⟩, ⟨1, 0⟩] [q0, q1, q2, q3, q0, q1, q2, q3, q0, q1, q2, q3, ⟨0, 1⟩, ⟨1, 1⟩, ⟨0, 0⟩, ⟨1, 0⟩, ⟨0, 1⟩, ⟨1, 1⟩, ⟨0, 0⟩, ⟨1, 0⟩, ⟨0, 1⟩, ⟨1, 1⟩, ⟨0, 0⟩, ⟨1, 0⟩] 8 (by norm_num) rfl]
  rw [patchUVFrom_step2 [q0, q1, q2, q3] [q0, q1, q2, q3, q0, q1, q2, q3, q0, q1, q2, q3, ⟨0, 1⟩, ⟨1, 1⟩, ⟨0, 0⟩, ⟨1, 0⟩, ⟨0, 1⟩, ⟨1, 1⟩, ⟨0, 0⟩, ⟨1, 0⟩, ⟨0, 1⟩, ⟨1, 1⟩, ⟨0, 0⟩, ⟨1, 0⟩] [q0, q1, q2, q3, q0, q1, q2, q3, q0, q1, q2, q3, q0, q1, q2, q3, ⟨0, 1⟩, ⟨1, 1⟩, ⟨0, 0⟩, ⟨1, 0⟩, ⟨0, 1⟩, ⟨1, 1⟩, ⟨0, 0⟩, ⟨1, 0⟩] 12 (by norm_num) rfl]
  rw [patchUVFrom_step2 [q0, q1, q2, q3] [q0, q1, q2, q3, q0, q1, q2, q3, q0, q1, q2, q3, q0, q1, q2, q3, ⟨0, 1⟩, ⟨1, 1⟩, ⟨0, 0⟩, ⟨1, 0⟩, ⟨0, 1⟩, ⟨1, 1⟩, ⟨0, 0⟩, ⟨1, 0⟩] [q0, q1, q2, q3, q0, q1, q2, q3, q0, q1, q2, q3, q0, q1, q2, q3, q0, q1, q2, q3, ⟨0, 1⟩, ⟨1, 1⟩, ⟨0, 0⟩, ⟨1, 0⟩] 16 (by norm_num) rfl]
  rw [patchUVFrom_step2 [q0, q1, q2, q3] [q0, q1, q2, q3, q0, q1, q2, q3, q0, q1, q2, q3, q0, q1, q2, q3, q0, q1, q2, q3, ⟨0, 1⟩, ⟨1, 1⟩, ⟨0, 0⟩, ⟨1, 0⟩] [q0, q1, q2, q3, q0, q1, q2, q3, q0, q1, q2, q3, q0, q1, q2, q3, q0, q1, q2, q3, q0, q1, q2, q3] 20 (by norm_num) rfl]
  rw [patchUVFrom_stop [q0, q1, q2, q3] [q0, q1, q2, q3, q0, q1, q2, q3, q0, q1, q2, q3, q0, q1, q2, q3, q0, q1, q2, q3, q0, q1, q2, q3] 24 (by norm_num)]
  rfl

lemma genBlockId_ne_air (y : ℕ) (hy : y < 8) : genBlockId y ≠ airId := by
  unfold genBlockId grassId dirtId stoneId airId
  split_ifs <;> omega

/-- C2: for every non-Air voxel `(x, y, z)` of the generated world, mesh
building emits exactly one `CubeInstance` positioned at
`(x + 0.5, y + 0.5, z + 0.5)`; for every Air voxel it emits none; and
the default flat generation emits `16 * 16 * 8 = 2048` instances in
total. -/
theorem C2_mesh_world_correspondence :
    (∀ x y z : ℕ,
        (worldInstances.countP fun inst =>
            decide (inst.pos = ((x : ℚ) + 1/2, (y : ℚ) + 1/2, (z : ℚ) + 1/2))) =
          if worldGrid x y z ≠ airId then 1 else 0) ∧
    worldInstances.length = 16 * 16 * 8 := by
  constructor
  · intro x y z
    rw [countP_worldInstances]
    have hiff : worldGrid x y z ≠ airId ↔ (x < 16 ∧ z < 16 ∧ y < 8) := by
      simp only [worldGrid, CHUNK_SIZE]
      split_ifs with h
      · simp only [ne_eq, genBlockId_ne_air y h.2.2, not_false_eq_true, true_iff]
        exact h
      · simp [h]
    rw [if_congr hiff.symm rfl rfl]
  · rw [worldInstances_length]

/-- C4: world generation is deterministic flat terrain: for every
`(x, z)` in `[0, 16)²` the block at `y = 0` is Grass, at `y ∈ [1, 4)`
Dirt, at `y ∈ [4, 8)` Stone, and at every other `y` Air. (Determinism
is inherent: the generation is embedded as the pure constant the source
computes, with no random input.) -/
theorem C4_flat_generation (x z : ℤ) (hx0 : 0 ≤ x) (hx : x < 16)
    (hz0 : 0 ≤ z) (hz : z < 16) :
    blockAt x 0 z = grassId ∧
    (∀ y : ℤ, 1 ≤ y → y < 4 → blockAt x y z = dirtId) ∧
    (∀ y : ℤ, 4 ≤ y → y < 8 → blockAt x y z = stoneId) ∧
    (∀ y : ℤ, y < 0 ∨ 8 ≤ y → blockAt x y z = airId) := by
  refine ⟨?_, ?_, ?_, ?_⟩
  · simp only [blockAt]
    rw [if_pos ⟨hx0, hx, hz0, hz, le_refl 0, by omega⟩]
    simp only [worldGrid, CHUNK_SIZE]
    rw [if_pos ⟨by omega, by omega, by omega⟩]
    simp [genBlockId]
  · intro y h1 h2
    simp only [blockAt]
    rw [if_pos ⟨hx0, hx, hz0, hz, by omega, by omega⟩]
    simp only [worldGrid, CHUNK_SIZE]
    rw [if_pos ⟨by omega, by omega, by omega⟩]
    unfold genBlockId
    rw [if_neg (by omega), if_pos (by omega)]
  · intro y h1 h2
    simp only [blockAt]
    rw [if_pos ⟨hx0, hx, hz0, hz, by omega, by omega⟩]
    simp only [worldGrid, CHUNK_SIZE]
    rw [if_pos ⟨by omega, by omega, by omega⟩]
    unfold genBlockId
    rw [if_neg (by omega), if_neg (by omega), if_pos (by omega)]
  · intro y h
    simp only [blockAt]
    rw [if_neg (by omega)]

/-- C4 witness: the generated column at `(0, 0)` evaluated at
representative layers. -/
theorem C4_flat_generation_witness :
    blockAt 0 0 0 = grassId ∧ blockAt 0 2 0 = dirtId ∧
    blockAt 0 5 0 = stoneId ∧ blockAt 0 9 0 = airId ∧ blockAt 0 (-1) 0 = airId := by
  obtain ⟨h1, h2, h3, h4⟩ := C4_flat_generation 0 0 (by norm_num) (by norm_num)
    (by norm_num) (by norm_num)
  exact ⟨h1, h2 2 (by norm_num) (by norm_num), h3 5 (by norm_num) (by norm_num),
    h4 9 (by norm_num), h4 (-1) (by norm_num)⟩

/-- C6: the voxel lookup returns Air for every coordinate outside the
generated extent rather than failing. The lookup itself is absent from
the source (`blockAt` is modelled from the spec, see its doc comment). -/
theorem C6_out_of_range_air (x y z : ℤ)
    (h : ¬(0 ≤ x ∧ x < 16) ∨ ¬(0 ≤ z ∧ z < 16) ∨ ¬(0 ≤ y ∧ y < 8)) :
    blockAt x y z = airId := by
  simp only [blockAt]
  rw [if_neg (by omega)]

/-- C6 witness: lookups at coordinates outside the extent on each axis. -/
theorem C6_out_of_range_air_witness :
    blockAt (-1) 0 0 = airId ∧ blockAt 16 0 0 = airId ∧
    blockAt 0 8 0 = airId ∧ blockAt 0 0 (-3) = airId :=
  ⟨C6_out_of_range_air (-1) 0 0 (by norm_num),
   C6_out_of_range_air 16 0 0 (by norm_num),
   C6_out_of_range_air 0 8 0 (by norm_num),
   C6_out_of_range_air 0 0 (-3) (by norm_num)⟩

/-- C7 (counterexample): the claim says `uvForBlock` fails when the type
is Air; in the source `getUVForBlock` is a straight-line computation
with no failure path, and at Air (`id = 0`) it succeeds and returns a
well-formed 4-element quad (at horizontal offset `-1/16`). -/
theorem C7_counterexample :
    getUVForBlock 0 =
      [⟨-(1/16), 15/16⟩, ⟨0, 15/16⟩, ⟨0, 1⟩, ⟨-(1/16), 1⟩] := by
  norm_num [getUVForBlock, atlasBlockSize]

/-- C7 (amended): `getUVForBlock` never fails: for every id — registered
non-Air types, Air and unknown ids alike — it returns a 4-element UV
quad. -/
theorem C7_uv_lookup_total (id : ℤ) : (getUVForBlock id).length = 4 := by
  simp [getUVForBlock]

/-- C9: for a block id `i ≥ 1` the UV lookup returns the quad covering
the horizontal span `[(i-1)/16, i/16]` at the topmost atlas row
(`v` spanning `[1 - 1/16, 1]`), and the mesher writes this identical
4-coordinate quad into all 6 faces of the cube (every consecutive group
of 4 of the 24 UV vertices receives the quad). -/
theorem C9_uv_atlas_layout (id : ℤ) (h : 1 ≤ id) :
    getUVForBlock id =
      [⟨((id : ℚ) - 1) * (1/16), 1 - 1/16⟩, ⟨(id : ℚ) * (1/16), 1 - 1/16⟩,
       ⟨(id : ℚ) * (1/16), 1⟩, ⟨((id : ℚ) - 1) * (1/16), 1⟩] ∧
    cubeUVs id = (List.replicate 6 (getUVForBlock id)).flatten := by
  have huv : getUVForBlock id =
      [⟨((id : ℚ) - 1) * atlasBlockSize, 1 - atlasBlockSize⟩,
       ⟨((id : ℚ) - 1) * atlasBlockSize + atlasBlockSize, 1 - atlasBlockSize⟩,
       ⟨((id : ℚ) - 1) * atlasBlockSize + atlasBlockSize, 1⟩,
       ⟨((id : ℚ) - 1) * atlasBlockSize, 1⟩] := by
    simp [getUVForBlock]
  constructor
  · rw [huv]
    norm_num [atlasBlockSize]
    ring
  · show patchUVFrom (getUVForBlock id) boxGeometryUVs 0 = _
    rw [huv]
    exact patchUVFrom_box _ _ _ _

/-- C9 witness: the layout at the grass block id `1`. -/
theorem C9_uv_atlas_layout_witness :
    getUVForBlock 1 =
      [⟨((1 : ℚ) - 1) * (1/16), 1 - 1/16⟩, ⟨(1 : ℚ) * (1/16), 1 - 1/16⟩,
       ⟨(1 : ℚ) * (1/16), 1⟩, ⟨((1 : ℚ) - 1) * (1/16), 1⟩] ∧
    cubeUVs 1 = (List.replicate 6 (getUVForBlock 1)).flatten := by
  have h := C9_uv_atlas_layout 1 (by norm_num)
  exact_mod_cast h

lemma animateTick_ground (s : PlayerState) (i : Intent) (delta : ℝ) :
    2 ≤ (animateTick s i delta).position.y := by
  rw [animateTick_eq]
  unfold groundClamp
  split_ifs with h
  · simp
  · simpa using le_of_not_lt h

lemma spaceKeydown_position (s : PlayerState) :
    (spaceKeydown s).position = s.position := by
  unfold spaceKeydown
  split_ifs <;> rfl

/-- C1 (counterexample): starting at rest at `(8, 10, 8)` with
`forward = true`, all other flags false and `dt = 1`, the literal
step-1-to-5 formulas give velocity `(0, -9.8, -20)` and position
`(8, 0.2, -12)`; but the tick's resulting state is not that: since
`0.2 < 2` the ground clamp of the same tick fires, leaving position
`(8, 2, -12)` and velocity `(0, 0, -20)`. -/
theorem C1_counterexample :
    moveIntegrate initialState ⟨true, false, false, false⟩ 1 =
        ⟨⟨8, 1/5, -12⟩, ⟨0, -49/5, -20⟩, false⟩ ∧
    animateTick initialState ⟨true, false, false, false⟩ 1 =
        ⟨⟨8, 2, -12⟩, ⟨0, 0, -20⟩, true⟩ ∧
    animateTick initialState ⟨true, false, false, false⟩ 1 ≠
        moveIntegrate initialState ⟨true, false, false, false⟩ 1 := by
  refine ⟨?_, ?_, ?_⟩
  · norm_num [moveIntegrate, vnormalize, vlength, num, initialState, Real.sqrt_one]
  · norm_num [animateTick, vnormalize, vlength, num, initialState, Real.sqrt_one]
  · norm_num [animateTick, moveIntegrate, vnormalize, vlength, num, initialState,
      Real.sqrt_one, PlayerState.mk.injEq, Vec3.mk.injEq]

/-- C1 (amended): one tick applies, in order, gravity, horizontal
damping, direction normalization, the guarded subtracted acceleration
and the position integration — exactly the literal formulas, embodied
by `moveIntegrate` — and then the ground clamp. In the scenario (rest
at `(8, 10, 8)`, `forward = true`, `dt = 1`) the literal formulas give
velocity `(0, -9.8, -20)` and position `(8, 0.2, -12)`, and because
`0.2 < 2` the clamp then yields the tick's final velocity `(0, 0, -20)`
and position `(8, 2, -12)`. -/
theorem C1_tick_literal_steps :
    (∀ (s : PlayerState) (i : Intent) (delta : ℝ),
        animateTick s i delta = groundClamp (moveIntegrate s i delta)) ∧
    moveIntegrate initialState ⟨true, false, false, false⟩ 1 =
        ⟨⟨8, 1/5, -12⟩, ⟨0, -49/5, -20⟩, false⟩ ∧
    animateTick initialState ⟨true, false, false, false⟩ 1 =
        ⟨⟨8, 2, -12⟩, ⟨0, 0, -20⟩, true⟩ := by
  refine ⟨animateTick_eq, ?_, ?_⟩
  · norm_num [moveIntegrate, vnormalize, vlength, num, initialState, Real.sqrt_one]
  · norm_num [animateTick, vnormalize, vlength, num, initialState, Real.sqrt_one]

/-- C3: every state reachable from the initial state satisfies
`position.y ≥ GROUND_Y = 2` at the end of each tick, and whenever the
integration would take `position.y` below 2 within a tick, the tick's
result has `position.y = 2` exactly, `velocity.y = 0` exactly, and the
jump available (`canJump = true`, i.e. Grounded). -/
theorem C3_ground_clamp_invariant :
    (∀ s : PlayerState, Reachable s → 2 ≤ s.position.y) ∧
    (∀ (s : PlayerState) (i : Intent) (delta : ℝ),
        (moveIntegrate s i delta).position.y < 2 →
        (animateTick s i delta).position.y = 2 ∧
        (animateTick s i delta).velocity.y = 0 ∧
        (animateTick s i delta).canJump = true) := by
  constructor
  · intro s hs
    induction hs with
    | init => norm_num [initialState]
    | tick s i delta _ _ => exact animateTick_ground s i delta
    | jump s _ ih => rw [spaceKeydown_position]; exact ih
  · intro s i delta h
    rw [animateTick_eq]
    unfold groundClamp
    rw [if_pos h]
    exact ⟨rfl, rfl, rfl⟩

/-- C3 witness: the initial state is above ground, and a tick from rest
at ground height with `dt = 1` (integration would reach `y = -9.8`)
clamps to exactly `y = 2`, `velocity.y = 0`, grounded. -/
theorem C3_ground_clamp_invariant_witness :
    2 ≤ initialState.position.y ∧
    ((animateTick ⟨⟨8, 2, 8⟩, ⟨0, 0, 0⟩, false⟩ ⟨false, false, false, false⟩ 1).position.y = 2 ∧
     (animateTick ⟨⟨8, 2, 8⟩, ⟨0, 0, 0⟩, false⟩ ⟨false, false, false, false⟩ 1).velocity.y = 0 ∧
     (animateTick ⟨⟨8, 2, 8⟩, ⟨0, 0, 0⟩, false⟩ ⟨false, false, false, false⟩ 1).canJump = true) :=
  ⟨C3_ground_clamp_invariant.1 initialState Reachable.init,
   C3_ground_clamp_invariant.2 ⟨⟨8, 2, 8⟩, ⟨0, 0, 0⟩, false⟩ ⟨false, false, false, false⟩ 1
     (by norm_num [moveIntegrate, vnormalize, vlength, num, Real.sqrt_zero])⟩

/-- C5: a jump pulse while grounded (`canJump = true`) sets `velocity.y`
to exactly the previous `velocity.y + 8` and consumes the jump
(`canJump` becomes false, i.e. Airborne); a jump pulse while airborne
(`canJump = false`) leaves velocity and position unchanged; and the
jump stays unavailable through any tick whose integration does not drop
below ground (no re-grounding). -/
theorem C5_jump_consumption :
    (∀ s : PlayerState, s.canJump = true →
        (spaceKeydown s).velocity.y = s.velocity.y + 8 ∧
        (spaceKeydown s).canJump = false) ∧
    (∀ s : PlayerState, s.canJump = false →
        (spaceKeydown s).velocity = s.velocity ∧
        (spaceKeydown s).position = s.position ∧
        (spaceKeydown s).canJump = false) ∧
    (∀ (s : PlayerState) (i : Intent) (delta : ℝ), s.canJump = false →
        2 ≤ (moveIntegrate s i delta).position.y →
        (animateTick s i delta).canJump = false) := by
  refine ⟨?_, ?_, ?_⟩
  · intro s h
    unfold spaceKeydown
    rw [if_pos h]
    exact ⟨rfl, rfl⟩
  · intro s h
    unfold spaceKeydown
    rw [if_neg (by simp [h])]
    exact ⟨rfl, rfl, rfl⟩
  · intro s i delta h hy
    rw [animateTick_eq]
    unfold groundClamp
    rw [if_neg (by simpa using not_lt.mpr hy)]
    have : (moveIntegrate s i delta).canJump = s.canJump := rfl
    rw [this, h]

/-- C5 witness: a grounded state gains exactly `+8` vertical velocity
and loses the jump; an airborne state is unchanged by the pulse; a
zero-length tick from the initial airborne state keeps the jump
unavailable. -/
theorem C5_jump_consumption_witness :
    ((spaceKeydown ⟨⟨8, 2, 8⟩, ⟨1, -3, 2⟩, true⟩).velocity.y = -3 + 8 ∧
     (spaceKeydown ⟨⟨8, 2, 8⟩, ⟨1, -3, 2⟩, true⟩).canJump = false) ∧
    ((spaceKeydown initialState).velocity = initialState.velocity ∧
     (spaceKeydown initialState).position = initialState.position ∧
     (spaceKeydown initialState).canJump = false) ∧
    (animateTick initialState ⟨false, false, false, false⟩ 0).canJump = false :=
  ⟨C5_jump_consumption.1 ⟨⟨8, 2, 8⟩, ⟨1, -3, 2⟩, true⟩ rfl,
   C5_jump_consumption.2.1 initialState rfl,
   C5_jump_consumption.2.2 initialState ⟨false, false, false, false⟩ 0 rfl
     (by norm_num [moveIntegrate, vnormalize, vlength, num, Real.sqrt_zero, initialState])⟩

/-- C8: with all four directional flags false, the direction vector the
tick builds is the zero vector, normalizing it yields the zero vector
(no division by zero: the `length() || 1` guard divides by 1), and the
tick contributes no horizontal acceleration — the resulting horizontal
velocities are exactly the damped previous velocities, for every state
and every `dt`. -/
theorem C8_zero_direction_safety :
    vnormalize ⟨num false - num false, 0, num false - num false⟩ = ⟨0, 0, 0⟩ ∧
    (∀ (s : PlayerState) (delta : ℝ),
        (animateTick s ⟨false, false, false, false⟩ delta).velocity.x =
          s.velocity.x - s.velocity.x * 10 * delta ∧
        (animateTick s ⟨false, false, false, false⟩ delta).velocity.z =
          s.velocity.z - s.velocity.z * 10 * delta) := by
  constructor
  · norm_num [vnormalize, vlength, num, Real.sqrt_zero]
  · intro s delta
    rw [animateTick_eq]
    unfold groundClamp
    split_ifs <;> simp [moveIntegrate]

/-- C10: the mouse-look handler keeps the pitch (`rotation.x`) within
`[-π/2, π/2]` after every event, no sequence of look deltas can push it
outside that range, and the yaw (`rotation.y`) is updated unclamped. -/
theorem C10_pitch_clamped :
    (∀ (rot : ℝ × ℝ) (mx my : ℝ),
        -(Real.pi / 2) ≤ (onMouseMove rot mx my).1 ∧
        (onMouseMove rot mx my).1 ≤ Real.pi / 2 ∧
        (onMouseMove rot mx my).2 = rot.2 - mx * 0.002) ∧
    (∀ (rot : ℝ × ℝ) (l : List (ℝ × ℝ)), l ≠ [] →
        -(Real.pi / 2) ≤ (processMouseMoves rot l).1 ∧
        (processMouseMoves rot l).1 ≤ Real.pi / 2) := by
  have hsingle : ∀ (rot : ℝ × ℝ) (mx my : ℝ),
      -(Real.pi / 2) ≤ (onMouseMove rot mx my).1 ∧
      (onMouseMove rot mx my).1 ≤ Real.pi / 2 := by
    intro rot mx my
    unfold onMouseMove
    constructor
    · exact le_max_left _ _
    · have hpi : -(Real.pi / 2) ≤ Real.pi / 2 := by
        have := Real.pi_pos
        linarith
      exact max_le hpi (min_le_left _ _)
  constructor
  · intro rot mx my
    exact ⟨(hsingle rot mx my).1, (hsingle rot mx my).2, rfl⟩
  · intro rot l
    induction l generalizing rot with
    | nil => intro h; exact absurd rfl h
    | cons e t ih =>
      intro _
      cases t with
      | nil => exact hsingle rot e.1 e.2
      | cons e2 t2 =>
        show -(Real.pi / 2) ≤ (processMouseMoves (onMouseMove rot e.1 e.2) (e2 :: t2)).1 ∧ _
        exact ih (onMouseMove rot e.1 e.2) (by simp)

/-- C10 witness: one processed event from a level view. -/
theorem C10_pitch_clamped_witness :
    -(Real.pi / 2) ≤ (processMouseMoves (0, 0) [(1, 1)]).1 ∧
    (processMouseMoves (0, 0) [(1, 1)]).1 ≤ Real.pi / 2 :=
  C10_pitch_clamped.2 (0, 0) [(1, 1)] (by simp)
